import Mathlib

set_option maxRecDepth 4096

/-!
Verification of `silencer` (src/main.py): a single-endpoint webhook bridge
that receives a Mattermost slash-command callback, authenticates it,
parses a duration string, builds an Alertmanager silence payload and
POSTs it downstream, replying synchronously with a chat-formatted body.

The Python code is shallowly embedded: pure helpers become Lean
functions; Python exceptions become an `Except PyExc` result; the
current UTC instant (`datetime.now(timezone.utc)`) and the downstream
HTTP exchange are passed in explicitly as parameters; `os.environ`
reads that happen per request are passed in as a per-request argument.
Python `datetime` values are embedded as microseconds since the POSIX
epoch (an `Int`), `timedelta` values as whole seconds (a `Nat`; every
span the program builds is a whole number of minutes).
-/

namespace Silencer

/-- Python exceptions distinguished by the program: `ValueError` is caught
separately in the handler (`except ValueError`); every other exception
falls to the generic `except Exception` branch. The payload is `str(e)`. -/
inductive PyExc where
  | valueError (msg : String)
  | indexError (msg : String)
  | overflowError (msg : String)
  | networkError (msg : String)
  | httpStatusError (msg : String)
deriving DecidableEq, Repr

/-- `str(e)` of an embedded exception. -/
def PyExc.str : PyExc → String
  | .valueError m => m
  | .indexError m => m
  | .overflowError m => m
  | .networkError m => m
  | .httpStatusError m => m

deriving instance DecidableEq for Except

/-- The ASCII whitespace characters recognised by Python `str.split()`
and `str.strip()` (the embedding restricts to ASCII). -/
def pyIsSpace (c : Char) : Bool :=
  c = ' ' || c = '\t' || c = '\n' || c = '\r' || c = '\x0b' || c = '\x0c'

/-- Split a character list at every character satisfying `p`, keeping
empty groups (Python `str.split(sep)` semantics for a one-character
separator: `"".split(",") = [""]`, `"a,".split(",") = ["a",""]`). -/
def splitCharsP (p : Char → Bool) : List Char → List (List Char)
  | [] => [[]]
  | c :: cs =>
    let r := splitCharsP p cs
    if p c then [] :: r
    else
      match r with
      | g :: gs => (c :: g) :: gs
      | [] => [[c]]

/-- Python `s.split(sep)` for a one-character separator `sep`. -/
def pySplit (sep : Char) (s : String) : List String :=
  (splitCharsP (fun c => c = sep) s.toList).map String.mk

/-- Python `s.split()` with no separator: split on runs of whitespace,
discarding empty pieces (`"".split() = []`). -/
def pySplitWs (s : String) : List String :=
  ((splitCharsP pyIsSpace s.toList).map String.mk).filter (fun t => t ≠ "")

/-- Python `s.strip()` (ASCII whitespace). -/
def pyStrip (s : String) : String :=
  String.mk (((s.toList.dropWhile pyIsSpace).reverse.dropWhile pyIsSpace).reverse)

/-- Start codepoints of the 66 runs of ten consecutive Unicode decimal
digits matched by `\d` in a CPython `str` pattern (each run carries the
values 0-9 in order); obtained by enumerating
`re.match(r'\d', chr(cp))` over every codepoint. `int()` accepts
exactly these characters, with the value given by the offset into the
run. -/
def digitRunStarts : List Nat :=
  [48, 1632, 1776, 1984, 2406, 2534, 2662, 2790, 2918, 3046, 3174, 3302,
   3430, 3558, 3664, 3792, 3872, 4160, 4240, 6112, 6160, 6470, 6608, 6784,
   6800, 6992, 7088, 7232, 7248, 42528, 43216, 43264, 43472, 43504, 43600,
   44016, 65296, 66720, 68912, 69734, 69872, 69942, 70096, 70384, 70736,
   70864, 71248, 71360, 71472, 71904, 72016, 72784, 73040, 73120, 92768,
   92864, 93008, 120782, 120792, 120802, 120812, 120822, 123200, 123632,
   125264, 130032]

/-- The characters matched by `\d` (Unicode decimal digits). -/
def pyIsReDigit (c : Char) : Bool :=
  digitRunStarts.any fun r => decide (r ≤ c.toNat) && decide (c.toNat < r + 10)

/-- The decimal value of a Unicode decimal digit: its offset into the
run of ten containing it (0 for characters outside every run, which
`\d` never produces). -/
def pyDigitVal (c : Char) : Nat :=
  match digitRunStarts.find? (fun r => decide (r ≤ c.toNat) && decide (c.toNat < r + 10)) with
  | some r => c.toNat - r
  | none => 0

/-- Python `int(s)` on a string of Unicode decimal digits. -/
def pyInt (s : String) : Nat :=
  s.toList.foldl (fun a c => a * 10 + pyDigitVal c) 0

/-- Python `sep.join(parts)`. -/
def pyJoin (sep : String) : List String → String
  | [] => ""
  | [x] => x
  | x :: y :: xs => x ++ sep ++ pyJoin sep (y :: xs)

/-! ### Configuration (src/main.py lines 16-32)

`MATTERMOST_TOKENS`, `ALERTMANAGER_URL`, `HOST` and `PORT` are read from
the environment when `Config()` is instantiated at module load (line 91),
once per process. `get_approved_users` by contrast reads
`os.environ.get('ALLOWED_USERS')` on every call, i.e. on every request
(line 107), so the allow-list environment value is a per-request input. -/

/-- `[x.strip() for x in s.split(',') if x.strip()]` — the comma-list
parsing shared by `MATTERMOST_TOKENS` and `ALLOWED_USERS`. -/
def parseCommaList (s : String) : List String :=
  ((pySplit ',' s).map pyStrip).filter (fun t => t ≠ "")

/-- The process-wide configuration object, built once at startup from the
startup environment. -/
structure Config where
  MATTERMOST_TOKENS : List String
  ALERTMANAGER_URL : String
  HOST : String
  PORT : Nat
deriving DecidableEq, Repr

/-- `Config()` as evaluated at line 91, from the startup values of the
environment variables (absent = `none`). -/
def Config.fromEnv (tokens url host port : Option String) : Config :=
  { MATTERMOST_TOKENS := parseCommaList (tokens.getD "")
    ALERTMANAGER_URL := url.getD "http://alertmanager:9093"
    HOST := host.getD "0.0.0.0"
    PORT := pyInt (port.getD "7788") }

/-- `Config.get_approved_users` (lines 27-32): reads `ALLOWED_USERS` from
the environment at call time; `None` or `""` (falsy) yields `none`,
otherwise the stripped non-empty comma-separated entries. -/
def get_approved_users (allowedUsersEnv : Option String) : Option (List String) :=
  match allowedUsersEnv with
  | none => none
  | some users => if users = "" then none else some (parseCommaList users)

/-! ### Duration parser (src/main.py lines 51-65) -/

/-- `re.match(r'^(\d+)([mhdw])$', s)`: one or more Unicode decimal
digits followed by a unit letter, where `$` matches at the end of the
string or just before one trailing newline; returns the two captured
groups. -/
def reMatchDuration (s : String) : Option (String × Char) :=
  let cs := s.toList
  let core := if cs.getLast? = some '\n' then cs.dropLast else cs
  match core.getLast? with
  | none => none
  | some u =>
    let ds := core.dropLast
    if ds.isEmpty then none
    else if ds.all pyIsReDigit && (u = 'm' || u = 'h' || u = 'd' || u = 'w') then
      some (String.mk ds, u)
    else none

/-- Seconds per unit for the `units` dict (`m` minutes, `h` hours,
`d` days, `w` weeks); junk value 0 for letters the regex rejects. -/
def unitSecs : Char → Nat
  | 'm' => 60
  | 'h' => 3600
  | 'd' => 86400
  | 'w' => 604800
  | _ => 0

/-- CPython `timedelta` bound: after normalisation the day count must
have magnitude at most 999999999, else `OverflowError`. -/
def timedeltaMaxDays : Nat := 999999999

/-- The `OverflowError` message CPython raises for an out-of-range
`timedelta`: the day-count message while the normalised day count still
fits in a C int (at most 2147483647), the C-conversion message beyond
that. -/
def overflowMsg (secs : Nat) : String :=
  if secs / 86400 ≤ 2147483647 then
    "days=" ++ toString (secs / 86400) ++ "; must have magnitude <= 999999999"
  else "Python int too large to convert to C int"

/-- `timedelta(**{unit: value})` for a non-negative whole number of
seconds: returns the span, or the `OverflowError` CPython raises when
the normalised day count exceeds the bound. -/
def timedeltaOfSecs (secs : Nat) : Except PyExc Nat :=
  if secs / 86400 > timedeltaMaxDays then .error (.overflowError (overflowMsg secs))
  else .ok secs

/-- The `ValueError` message raised on a regex mismatch (line 62). -/
def invalidDurationMsg : String :=
  "Invalid duration format. Use <number><unit> where unit is m,h,d,w"

/-- `parse_duration` (lines 51-65): match the regex, else `ValueError`;
on a match build `timedelta(**{units[unit]: int(value)})`. The result is
the span in seconds. -/
def parse_duration (s : String) : Except PyExc Nat :=
  match reMatchDuration s with
  | none => .error (.valueError invalidDurationMsg)
  | some (value, unit) => timedeltaOfSecs (pyInt value * unitSecs unit)

/-! ### Silence client (src/main.py lines 67-87) -/

/-- One entry of the `matchers` list in the JSON payload. -/
structure Matcher where
  name : String
  value : String
  isRegex : Bool
deriving DecidableEq, Repr

/-- The silence JSON payload (`silence_data`, lines 72-79). `startsAt`
and `endsAt` hold `datetime.isoformat()` strings. -/
structure Silence where
  matchers : List Matcher
  startsAt : String
  endsAt : String
  createdBy : String
  comment : String
deriving DecidableEq, Repr

/-- Python list indexing `l[i]`: `IndexError` when out of range. -/
def pyIndex {α : Type} (l : List α) (i : Nat) : Except PyExc α :=
  match l.get? i with
  | some x => .ok x
  | none => .error (.indexError "list index out of range")

/-- Label-by-label worker for the matcher-list comprehension: the first
`IndexError` raised while evaluating `label.split("=")[0]` /
`label.split("=")[1]` aborts the whole comprehension. -/
def build_matchers_list : List String → Except PyExc (List Matcher)
  | [] => .ok []
  | label :: rest =>
    match pyIndex (pySplit '=' label) 0 with
    | .error e => .error e
    | .ok n =>
      match pyIndex (pySplit '=' label) 1 with
      | .error e => .error e
      | .ok v =>
        match build_matchers_list rest with
        | .error e => .error e
        | .ok ms => .ok ({ name := n, value := v, isRegex := false } :: ms)

/-- The matcher-list comprehension (lines 73-74):
`[{"name": label.split("=")[0], "value": label.split("=")[1],
"isRegex": False} for label in matcher.split(",")]`. A segment with no
`=` raises `IndexError` at `[1]`. -/
def build_matchers (matcher : String) : Except PyExc (List Matcher) :=
  build_matchers_list (pySplit ',' matcher)

/-- Left-pad the decimal form of a non-negative integer with zeros to
`w` characters. -/
def padZ (w : Nat) (n : Int) : String :=
  let d := toString n
  String.mk (List.replicate (w - d.toList.length) '0') ++ d

/-- Gregorian civil date from a count of days since 1970-01-01
(floor-division form of the standard days-to-civil algorithm), as used
by `datetime` for formatting. -/
def civilFromDays (z : Int) : Int × Int × Int :=
  let z' := z + 719468
  let era := z'.fdiv 146097
  let doe := z' - era * 146097
  let yoe := (doe - doe.fdiv 1460 + doe.fdiv 36524 - doe.fdiv 146096).fdiv 365
  let y := yoe + era * 400
  let doy := doe - (365 * yoe + yoe.fdiv 4 - yoe.fdiv 100)
  let mp := (5 * doy + 2).fdiv 153
  let d := doy - (153 * mp + 2).fdiv 5 + 1
  let m := mp + (if mp < 10 then 3 else -9)
  (y + (if m ≤ 2 then 1 else 0), m, d)

/-- `datetime.isoformat()` for a UTC-aware datetime given as
microseconds since the epoch:
`YYYY-MM-DDTHH:MM:SS[.ffffff]+00:00`, the fractional part omitted when
the microsecond field is zero. -/
def isoformat (us : Int) : String :=
  let days := us.fdiv 86400000000
  let tod := us - days * 86400000000
  let ymd := civilFromDays days
  let secs := tod.fdiv 1000000
  let micro := tod - secs * 1000000
  padZ 4 ymd.1 ++ "-" ++ padZ 2 ymd.2.1 ++ "-" ++ padZ 2 ymd.2.2 ++ "T" ++
    padZ 2 (secs.fdiv 3600) ++ ":" ++ padZ 2 ((secs.fdiv 60).fmod 60) ++ ":" ++
    padZ 2 (secs.fmod 60) ++
    (if micro = 0 then "" else "." ++ padZ 6 micro) ++ "+00:00"

/-- The pure part of `create_silence` (lines 69-79): `start_time` is the
current UTC instant (passed in as `now`, microseconds since the epoch),
`end_time = start_time + duration`, and `silence_data` is built from
them; building the matcher list may raise. -/
def silence_payload (now : Int) (matcher : String) (duration : Nat)
    (comment username : String) : Except PyExc Silence :=
  let start_time := now
  let end_time := start_time + (duration : Int) * 1000000
  match build_matchers matcher with
  | .error e => .error e
  | .ok ms =>
    .ok { matchers := ms
          startsAt := isoformat start_time
          endsAt := isoformat end_time
          createdBy := "mattermost-bot:" ++ username
          comment := comment ++ " (created-by: " ++ username ++ ")" }

/-- The downstream exchange of `create_silence`, passed in explicitly:
either the POST fails at transport level, or the backend answers with a
status code and a `silenceID` body field. -/
inductive BackendBehavior where
  | networkFailure (msg : String)
  | response (status : Nat) (silenceID : String)
deriving DecidableEq, Repr

/-- `response.raise_for_status()` (line 86): `httpx` raises
`HTTPStatusError` unless the status is 2xx (the embedding keeps only
the status code as the message). -/
def raise_for_status (status : Nat) : Except PyExc Unit :=
  if 200 ≤ status ∧ status < 300 then .ok ()
  else .error (.httpStatusError (toString status))

/-- `create_silence` (lines 67-87): build the payload, POST it, raise on
transport failure or non-2xx, return `response.json()["silenceID"]`. -/
def create_silence (now : Int) (matcher : String) (duration : Nat)
    (comment username : String) (backend : BackendBehavior) :
    Except PyExc String :=
  match silence_payload now matcher duration comment username with
  | .error e => .error e
  | .ok _payload =>
    match backend with
    | .networkFailure msg => .error (.networkError msg)
    | .response status sid =>
      match raise_for_status status with
      | .error e => .error e
      | .ok _ => .ok sid

/-! ### Command handler (src/main.py lines 93-159) -/

/-- The form fields of the inbound Mattermost slash-command callback. -/
structure MattermostCommand where
  token : String
  team_id : String
  team_domain : String
  channel_id : String
  channel_name : String
  user_id : String
  user_name : String
  command : String
  text : String
  response_url : String
deriving DecidableEq, Repr

/-- What the endpoint produces: either a raised `HTTPException`
(FastAPI turns it into that HTTP status) or a JSON reply body
`{"response_type": ..., "text": ...}` served with HTTP 200. -/
inductive HandlerResult where
  | httpException (status : Nat) (detail : String)
  | reply (response_type : String) (text : String)
deriving DecidableEq, Repr

/-- The usage-help text (lines 120-121; two adjacent Python string
literals concatenate). -/
def usageText : String :=
  "Usage: /silence <matcher> <duration> <comment>\n" ++
  "Example: /silence alertname=HighCPU,severity=critical 2h CPU alert silenced"

/-- The not-authorized reply text (line 111). -/
def notAuthorizedText : String := "You are not authorized to create silences."

/-- The success reply text (lines 134-139). -/
def successText (silence_id matcher duration_str comment user_name : String) :
    String :=
  "🔕 Alert silenced successfully!\n" ++
  "Silence ID: " ++ silence_id ++ "\n" ++
  "Matcher: " ++ matcher ++ "\n" ++
  "Duration: " ++ duration_str ++ "\n" ++
  "Comment: " ++ comment ++ "\n" ++
  "Created by: " ++ user_name

/-- The two `except` branches (lines 146-159): a `ValueError` yields
`"Error: " + str(e)`, any other exception `"An error occurred: " +
str(e)`; both are ephemeral replies served with HTTP 200. -/
def handleException (e : PyExc) : HandlerResult :=
  match e with
  | .valueError msg => .reply "ephemeral" ("Error: " ++ msg)
  | e => .reply "ephemeral" ("An error occurred: " ++ e.str)

/-- The body of the `try` block once `matcher`, `duration_str` and
`comment` are extracted (lines 128-144), with the `except` branches
applied to whatever the block raises. -/
def run_silence (matcher duration_str comment user_name : String)
    (now : Int) (backend : BackendBehavior) : HandlerResult :=
  match parse_duration duration_str with
  | .error e => handleException e
  | .ok duration =>
    match create_silence now matcher duration comment user_name backend with
    | .error e => handleException e
    | .ok silence_id =>
      .reply "in_channel"
        (successText silence_id matcher duration_str comment user_name)

/-- The `try` block (lines 114-144): split the text on whitespace,
reply with usage help when fewer than 3 tokens, else take
`args[0]`, `args[1]` and `" ".join(args[2:])` and run the silence
creation. -/
def try_body (user_name text : String) (now : Int)
    (backend : BackendBehavior) : HandlerResult :=
  let args := pySplitWs text
  if args.length < 3 then .reply "ephemeral" usageText
  else
    run_silence (args.getD 0 "") (args.getD 1 "")
      (pyJoin " " (args.drop 2)) user_name now backend

/-- `handle_silence_command` (lines 93-159). Inputs: the process-wide
`config`, the request-time value of the `ALLOWED_USERS` environment
variable (read per request at line 107), the parsed form data, the
current UTC instant and the downstream behaviour. -/
def handle_silence_command (cfg : Config) (allowedUsersEnv : Option String)
    (cmd : MattermostCommand) (now : Int) (backend : BackendBehavior) :
    HandlerResult :=
  if cfg.MATTERMOST_TOKENS = [] then
    .httpException 500 "No Mattermost tokens configured"
  else if cmd.token ∉ cfg.MATTERMOST_TOKENS then
    .httpException 401 "Invalid token"
  else
    match get_approved_users allowedUsersEnv with
    | some users =>
      if cmd.user_name ∉ users then .reply "ephemeral" notAuthorizedText
      else try_body cmd.user_name cmd.text now backend
    | none => try_body cmd.user_name cmd.text now backend

/-! ### Concrete fixtures used by closed theorems -/

/-- An inbound slash-command callback with the given token, user and
free text (the pass-through fields are arbitrary). -/
def mkCmd (tok user txt : String) : MattermostCommand :=
  { token := tok, team_id := "T", team_domain := "TD", channel_id := "C",
    channel_name := "CN", user_id := "U", user_name := user,
    command := "/silence", text := txt, response_url := "R" }

/-- A configuration whose startup environment had
`MATTERMOST_TOKENS="tok1,tok2"` and everything else unset. -/
def cfgStd : Config := Config.fromEnv (some "tok1,tok2") none none none

/-- The payload built from `now = 0`, a 60-second span, matcher `"x=y"`,
comment `"note"` and user `"bob"`. -/
def c3Fixture : Silence :=
  { matchers := [{ name := "x", value := "y", isRegex := false }]
    startsAt := "1970-01-01T00:00:00+00:00"
    endsAt := "1970-01-01T00:01:00+00:00"
    createdBy := "mattermost-bot:bob"
    comment := "note (created-by: bob)" }

/-! ### Helper lemmas -/

theorem handleException_reply (e : PyExc) :
    ∃ rt t, handleException e = .reply rt t := by
  cases e <;> exact ⟨_, _, rfl⟩

theorem run_silence_reply (m d c u : String) (now : Int) (b : BackendBehavior) :
    ∃ rt t, run_silence m d c u now b = .reply rt t := by
  cases hp : parse_duration d with
  | error e =>
    obtain ⟨rt, t, he⟩ := handleException_reply e
    exact ⟨rt, t, by simp only [run_silence, hp, he]⟩
  | ok dur =>
    cases hc : create_silence now m dur c u b with
    | error e =>
      obtain ⟨rt, t, he⟩ := handleException_reply e
      exact ⟨rt, t, by simp only [run_silence, hp, hc, he]⟩
    | ok sid =>
      exact ⟨"in_channel", successText sid m d c u, by simp only [run_silence, hp, hc]⟩

theorem try_body_reply (u t : String) (now : Int) (b : BackendBehavior) :
    ∃ rt txt, try_body u t now b = .reply rt txt := by
  unfold try_body
  by_cases hlen : (pySplitWs t).length < 3
  · rw [if_pos hlen]; exact ⟨_, _, rfl⟩
  · rw [if_neg hlen]; exact run_silence_reply _ _ _ _ _ _

theorem handle_eq_try_body (cfg : Config) (env : Option String)
    (cmd : MattermostCommand) (now : Int) (backend : BackendBehavior)
    (h1 : cfg.MATTERMOST_TOKENS ≠ [])
    (h2 : cmd.token ∈ cfg.MATTERMOST_TOKENS)
    (h3 : ∀ us, get_approved_users env = some us → cmd.user_name ∈ us) :
    handle_silence_command cfg env cmd now backend =
      try_body cmd.user_name cmd.text now backend := by
  unfold handle_silence_command
  rw [if_neg h1, if_neg (fun hc => hc h2)]
  split
  next users heq => rw [if_neg (not_not_intro (h3 users heq))]
  next => rfl

theorem handle_not_authorized (cfg : Config) (env : Option String)
    (cmd : MattermostCommand) (now : Int) (backend : BackendBehavior)
    (h1 : cfg.MATTERMOST_TOKENS ≠ [])
    (h2 : cmd.token ∈ cfg.MATTERMOST_TOKENS)
    (users : List String)
    (hg : get_approved_users env = some users)
    (hu : cmd.user_name ∉ users) :
    handle_silence_command cfg env cmd now backend =
      .reply "ephemeral" notAuthorizedText := by
  unfold handle_silence_command
  rw [if_neg h1, if_neg (fun hc => hc h2)]
  split
  next users' heq =>
    rw [hg] at heq
    cases heq
    rw [if_pos hu]
  next heq => rw [hg] at heq; cases heq

theorem create_silence_build_error (now : Int) (m : String) (d : Nat)
    (c u : String) (b : BackendBehavior) (e : PyExc)
    (hb : build_matchers m = .error e) :
    create_silence now m d c u b = .error e := by
  unfold create_silence silence_payload
  rw [hb]

theorem create_silence_network (now : Int) (m : String) (d : Nat)
    (c u : String) (ms : List Matcher) (msg : String)
    (hb : build_matchers m = .ok ms) :
    create_silence now m d c u (.networkFailure msg) =
      .error (.networkError msg) := by
  unfold create_silence silence_payload
  rw [hb]

theorem create_silence_status (now : Int) (m : String) (d : Nat)
    (c u : String) (ms : List Matcher) (status : Nat) (sid : String)
    (hb : build_matchers m = .ok ms) :
    create_silence now m d c u (.response status sid) =
      if 200 ≤ status ∧ status < 300 then .ok sid
      else .error (.httpStatusError (toString status)) := by
  by_cases hs : 200 ≤ status ∧ status < 300
  · simp [create_silence, silence_payload, raise_for_status, hb, hs]
  · simp [create_silence, silence_payload, raise_for_status, hb, hs]

theorem build_matchers_list_all_eq (l : List String)
    (h : ∀ seg ∈ l, 2 ≤ (pySplit '=' seg).length) :
    build_matchers_list l =
      Except.ok (l.map fun seg =>
        ⟨(pySplit '=' seg).getD 0 "", (pySplit '=' seg).getD 1 "", false⟩) := by
  induction l with
  | nil => rfl
  | cons x xs ih =>
    have hx := h x (by simp)
    have hxs := ih fun seg hs => h seg (List.mem_cons_of_mem x hs)
    match hsp : pySplit '=' x with
    | [] => rw [hsp] at hx; simp at hx
    | [p0] => rw [hsp] at hx; simp at hx
    | p0 :: p1 :: rest =>
      simp [build_matchers_list, hxs, hsp, pyIndex, List.getD]

/-! ### Claims -/

/-- Claim C1 (corrected). As stated the claim fails: not every string
matching `^\d+[mhdw]$` yields a span — a sufficiently large count
overflows `timedelta` (see the counterexample). Amended: for every
matching string (Python regex semantics: Unicode decimal digits, and
`$` also matches before one trailing newline) whose span fits the
`timedelta` day bound, `parse_duration` returns the numeric value in
the stated unit (leading zeros accepted); a matching string beyond the
bound raises `OverflowError` (with the day-count message up to the
C-int range and the C-conversion message beyond it); every non-matching
string fails with the `InvalidFormat` `ValueError`. -/
theorem c1_parse_duration_total (s : String) :
    (∀ ds u, reMatchDuration s = some (ds, u) →
      (pyInt ds * unitSecs u / 86400 ≤ timedeltaMaxDays →
        parse_duration s = .ok (pyInt ds * unitSecs u)) ∧
      (timedeltaMaxDays < pyInt ds * unitSecs u / 86400 →
        parse_duration s =
          .error (.overflowError (overflowMsg (pyInt ds * unitSecs u))))) ∧
    (reMatchDuration s = none →
      parse_duration s = .error (.valueError invalidDurationMsg)) := by
  constructor
  · intro ds u hm
    constructor
    · intro hle
      simp only [parse_duration, hm, timedeltaOfSecs]
      rw [if_neg (not_lt.mpr hle)]
    · intro hgt
      simp only [parse_duration, hm, timedeltaOfSecs]
      rw [if_pos hgt]
  · intro hm
    simp only [parse_duration, hm]

/-- Claim C1, counterexample to the original statement: the string
`"2000000000d"` matches `^\d+[mhdw]$` yet `parse_duration` does not
return a span in the stated unit — it raises `OverflowError`. -/
theorem c1_counterexample :
    reMatchDuration "2000000000d" = some ("2000000000", 'd') ∧
    parse_duration "2000000000d" =
      .error (.overflowError
        "days=2000000000; must have magnitude <= 999999999") := by decide

/-- Claim C1, witness: `"007h"` (leading zeros) parses to 7 hours =
25200 seconds, and `"7x"` (unknown unit) fails with the
`InvalidFormat` `ValueError`. -/
theorem c1_witness :
    parse_duration "007h" = .ok 25200 ∧
    parse_duration "7x" = .error (.valueError invalidDurationMsg) := by
  constructor
  · exact ((c1_parse_duration_total "007h").1 "007" 'h' (by decide)).1 (by decide)
  · exact (c1_parse_duration_total "7x").2 (by decide)

/-- Claim C8 (corrected). As stated the claim fails: the regex `\d+`
accepts a zero count, so `parse_duration` does not reject `"0h"`.
Amended: for every duration string matching the pattern with numeric
part zero, `parse_duration` succeeds and returns a zero span. -/
theorem c8_zero_duration (s ds : String) (u : Char)
    (h1 : reMatchDuration s = some (ds, u)) (h2 : pyInt ds = 0) :
    parse_duration s = .ok 0 := by
  simp [parse_duration, h1, timedeltaOfSecs, h2, timedeltaMaxDays]

/-- Claim C8, counterexample to the original statement: `"0h"` parses
successfully to a zero span instead of failing with `InvalidFormat`. -/
theorem c8_counterexample :
    parse_duration "0h" = .ok 0 ∧
    (Except.ok 0 : Except PyExc Nat) ≠
      .error (.valueError invalidDurationMsg) := by decide

/-- Claim C8, witness: `"000d"` matches the pattern with numeric part
zero and parses to the zero span. -/
theorem c8_witness : parse_duration "000d" = .ok 0 :=
  c8_zero_duration "000d" "000" 'd' (by decide) (by decide)

/-- Claim C10 (confirmed): `"999999999999d"` matches the accepted
`<digits><unit>` format, yet `parse_duration` raises `OverflowError`
rather than returning a span or the `InvalidFormat` `ValueError`, so
the user receives the generic "An error occurred" ephemeral reply
rather than the duration-format error message. -/
theorem c10_overflow_generic_reply :
    reMatchDuration "999999999999d" = some ("999999999999", 'd') ∧
    parse_duration "999999999999d" =
      .error (.overflowError "Python int too large to convert to C int") ∧
    handle_silence_command cfgStd none
        (mkCmd "tok1" "alice" "alertname=X 999999999999d too long") 0
        (.response 200 "sid-1") =
      .reply "ephemeral"
        "An error occurred: Python int too large to convert to C int" ∧
    ("An error occurred: Python int too large to convert to C int" ≠
      "Error: " ++ invalidDurationMsg) := by decide

/-- Claim C2 (corrected). As stated the claim fails: Python
`label.split("=")[1]` is the text between the first and the second `=`,
not the entire text after the first `=` (see the counterexample).
Amended: the matcher string is split on commas; each segment with at
least one `=` contributes, in order, a matcher whose name is the text
before the first `=` and whose value is the text between the first and
the second `=`, with `isRegex` always false. -/
theorem c2_build_matchers (m : String)
    (h : ∀ seg ∈ pySplit ',' m, 2 ≤ (pySplit '=' seg).length) :
    build_matchers m = .ok ((pySplit ',' m).map fun seg =>
      { name := (pySplit '=' seg).getD 0 ""
        value := (pySplit '=' seg).getD 1 ""
        isRegex := false }) :=
  build_matchers_list_all_eq (pySplit ',' m) h

/-- Claim C2, counterexample to the original statement: for the matcher
string `"a=b=c"` the code produces value `"b"`, not the entire text
`"b=c"` after the first `=`. -/
theorem c2_counterexample :
    build_matchers "a=b=c" =
      .ok [{ name := "a", value := "b", isRegex := false }] ∧
    ({ name := "a", value := "b", isRegex := false } : Matcher) ≠
      { name := "a", value := "b=c", isRegex := false } := by decide

/-- Claim C2, witness: the two-segment matcher string from the spec
example produces the two matchers in order with `isRegex = false`. -/
theorem c2_witness :
    build_matchers "alertname=HighCPU,severity=critical" =
      .ok [{ name := "alertname", value := "HighCPU", isRegex := false },
           { name := "severity", value := "critical", isRegex := false }] :=
  c2_build_matchers "alertname=HighCPU,severity=critical" (by decide)

/-- Claim C3 (corrected). As stated the claim fails on the `createdBy`
format: the code uses the fixed `"mattermost-bot:<username>"` prefix,
not `"bot:<username>"` (see the counterexample). Amended: every
successfully built payload has `createdBy = "mattermost-bot:" + u`,
`comment = c + " (created-by: " + u + ")"`, `startsAt` the ISO-8601
form of the current UTC instant (passed in as `now`), and `endsAt` the
ISO-8601 form of `now` plus the duration. -/
theorem c3_payload_fields (now : Int) (d : Nat) (m c u : String)
    (s : Silence) (h : silence_payload now m d c u = .ok s) :
    s.createdBy = "mattermost-bot:" ++ u ∧
    s.comment = c ++ " (created-by: " ++ u ++ ")" ∧
    s.startsAt = isoformat now ∧
    s.endsAt = isoformat (now + (d : Int) * 1000000) := by
  cases hb : build_matchers m with
  | error e => simp [silence_payload, hb] at h
  | ok ms =>
    simp only [silence_payload, hb, Except.ok.injEq] at h
    subst h
    exact ⟨rfl, rfl, rfl, rfl⟩

/-- Claim C3, counterexample to the original statement: the `createdBy`
field of a built payload is `"mattermost-bot:alice"`, which is not the
claimed `"bot:alice"`. -/
theorem c3_counterexample :
    (silence_payload 0 "a=b" 3600 "note" "alice").map Silence.createdBy =
      .ok "mattermost-bot:alice" ∧
    "mattermost-bot:alice" ≠ "bot:" ++ "alice" := by decide

/-- Claim C3, witness: the payload built at `now = 0` for a 60-second
span, comment `"note"` and user `"bob"` has the four claimed fields. -/
theorem c3_witness :
    c3Fixture.createdBy = "mattermost-bot:" ++ "bob" ∧
    c3Fixture.comment = "note" ++ " (created-by: " ++ "bob" ++ ")" ∧
    c3Fixture.startsAt = isoformat 0 ∧
    c3Fixture.endsAt = isoformat (0 + (60 : Int) * 1000000) :=
  c3_payload_fields 0 60 "x=y" "note" "bob" c3Fixture (by decide)

/-- Claim C5 (confirmed): with an empty server-side token list the
handler raises HTTP 500; with a non-empty list and an inbound token not
in it, HTTP 401; in both cases the result does not depend on the
downstream backend, i.e. no downstream call is made. -/
theorem c5_auth_failures (cfg : Config) (env : Option String)
    (cmd : MattermostCommand) (now : Int) (backend : BackendBehavior) :
    (cfg.MATTERMOST_TOKENS = [] →
      handle_silence_command cfg env cmd now backend =
        .httpException 500 "No Mattermost tokens configured") ∧
    (cfg.MATTERMOST_TOKENS ≠ [] → cmd.token ∉ cfg.MATTERMOST_TOKENS →
      handle_silence_command cfg env cmd now backend =
        .httpException 401 "Invalid token") ∧
    ((cfg.MATTERMOST_TOKENS = [] ∨ cmd.token ∉ cfg.MATTERMOST_TOKENS) →
      ∀ b', handle_silence_command cfg env cmd now b' =
        handle_silence_command cfg env cmd now backend) := by
  refine ⟨?_, ?_, ?_⟩
  · intro h
    unfold handle_silence_command
    rw [if_pos h]
  · intro hne h
    unfold handle_silence_command
    rw [if_neg hne, if_pos h]
  · intro hcase b'
    by_cases hne : cfg.MATTERMOST_TOKENS = []
    · unfold handle_silence_command
      rw [if_pos hne, if_pos hne]
    · have h : cmd.token ∉ cfg.MATTERMOST_TOKENS := hcase.resolve_left hne
      unfold handle_silence_command
      rw [if_neg hne, if_pos h, if_neg hne, if_pos h]

/-- Claim C5, witness: a config with no tokens yields the 500, and a
wrong inbound token against `cfgStd` yields the 401. -/
theorem c5_witness :
    handle_silence_command (Config.fromEnv none none none none) none
        (mkCmd "tok1" "alice" "a=b 2h c") 0 (.response 200 "s") =
      .httpException 500 "No Mattermost tokens configured" ∧
    handle_silence_command cfgStd none (mkCmd "bad" "alice" "a=b 2h c") 0
        (.response 200 "s") = .httpException 401 "Invalid token" :=
  ⟨(c5_auth_failures _ _ _ _ _).1 (by decide),
   (c5_auth_failures _ _ _ _ _).2.1 (by decide) (by decide)⟩

/-- Claim C7 (confirmed): an absent `ALLOWED_USERS` and an empty one
are equivalent (no restriction: the handler proceeds straight to the
command body); with a non-empty value whose parsed list excludes the
inbound user, the handler replies HTTP 200 ephemeral "not authorized"
and the result does not depend on the backend (no downstream call). -/
theorem c7_allow_list (cfg : Config) (cmd : MattermostCommand) (now : Int)
    (backend : BackendBehavior)
    (h1 : cfg.MATTERMOST_TOKENS ≠ [])
    (h2 : cmd.token ∈ cfg.MATTERMOST_TOKENS) :
    (∀ env, env = none ∨ env = some "" →
      handle_silence_command cfg env cmd now backend =
        try_body cmd.user_name cmd.text now backend) ∧
    (∀ s users, get_approved_users (some s) = some users →
      cmd.user_name ∉ users →
      handle_silence_command cfg (some s) cmd now backend =
        .reply "ephemeral" notAuthorizedText ∧
      ∀ b', handle_silence_command cfg (some s) cmd now b' =
        handle_silence_command cfg (some s) cmd now backend) := by
  constructor
  · intro env henv
    apply handle_eq_try_body cfg env cmd now backend h1 h2
    intro us hus
    rcases henv with rfl | rfl <;> simp [get_approved_users] at hus
  · intro s users hg hu
    constructor
    · exact handle_not_authorized cfg (some s) cmd now backend h1 h2 users hg hu
    · intro b'
      rw [handle_not_authorized cfg (some s) cmd now b' h1 h2 users hg hu,
        handle_not_authorized cfg (some s) cmd now backend h1 h2 users hg hu]

/-- Claim C7, witness: with `ALLOWED_USERS` unset the handler for user
`"carol"` proceeds to the command body, while with
`ALLOWED_USERS="alice,bob"` the same request gets the ephemeral
not-authorized reply. -/
theorem c7_witness :
    handle_silence_command cfgStd none (mkCmd "tok1" "carol" "x") 0
        (.response 200 "s") = try_body "carol" "x" 0 (.response 200 "s") ∧
    handle_silence_command cfgStd (some "alice,bob")
        (mkCmd "tok1" "carol" "x") 0 (.response 200 "s") =
      .reply "ephemeral" notAuthorizedText := by
  constructor
  · exact (c7_allow_list cfgStd _ 0 _ (by decide) (by decide)).1 none (Or.inl rfl)
  · exact ((c7_allow_list cfgStd _ 0 _ (by decide) (by decide)).2 "alice,bob"
      ["alice", "bob"] (by decide) (by decide)).1

/-- Claim C9 (corrected). As stated the claim fails: the allow-list is
not loaded once at startup — `get_approved_users` re-reads
`ALLOWED_USERS` on every request, so two requests in the same process
can consult different allow-lists (see the counterexample). Amended:
the token set, backend URL, host and port are fixed per process (the
`Config` value), and the handler depends on the request-time
environment only through `get_approved_users`: two requests whose
`ALLOWED_USERS` values parse to the same allow-list behave
identically. -/
theorem c9_env_dependence (cfg : Config) (cmd : MattermostCommand)
    (now : Int) (backend : BackendBehavior) (e1 e2 : Option String)
    (h : get_approved_users e1 = get_approved_users e2) :
    handle_silence_command cfg e1 cmd now backend =
      handle_silence_command cfg e2 cmd now backend := by
  unfold handle_silence_command
  rw [h]

/-- Claim C9, counterexample to the original statement: the same
process-wide config, the same request, but a change of `ALLOWED_USERS`
between the two requests changes the consulted allow-list and the
outcome. -/
theorem c9_counterexample :
    handle_silence_command cfgStd none (mkCmd "tok1" "carol" "a=b 2h ok") 0
        (.response 200 "sid-1") ≠
      handle_silence_command cfgStd (some "alice,bob")
        (mkCmd "tok1" "carol" "a=b 2h ok") 0 (.response 200 "sid-1") := by
  decide

/-- Claim C9, witness: an empty `ALLOWED_USERS` value parses like an
absent one, so the two requests behave identically. -/
theorem c9_witness :
    handle_silence_command cfgStd (some "") (mkCmd "tok1" "dave" "y") 0
        (.response 200 "s") =
      handle_silence_command cfgStd none (mkCmd "tok1" "dave" "y") 0
        (.response 200 "s") :=
  c9_env_dependence cfgStd (mkCmd "tok1" "dave" "y") 0 (.response 200 "s")
    (some "") none (by decide)

/-- Claim C6 (confirmed): for an authenticated, authorized request,
fewer than 3 whitespace tokens in the text yield the ephemeral
usage-help reply with no downstream dependence; with 3 or more tokens
the handler runs the silence creation with the first token as matcher,
the second as duration string and the rest joined by single spaces as
comment. -/
theorem c6_arg_split (cfg : Config) (env : Option String)
    (cmd : MattermostCommand) (now : Int) (backend : BackendBehavior)
    (h1 : cfg.MATTERMOST_TOKENS ≠ [])
    (h2 : cmd.token ∈ cfg.MATTERMOST_TOKENS)
    (h3 : ∀ us, get_approved_users env = some us → cmd.user_name ∈ us) :
    ((pySplitWs cmd.text).length < 3 →
      handle_silence_command cfg env cmd now backend =
        .reply "ephemeral" usageText ∧
      ∀ b', handle_silence_command cfg env cmd now b' =
        handle_silence_command cfg env cmd now backend) ∧
    (3 ≤ (pySplitWs cmd.text).length →
      handle_silence_command cfg env cmd now backend =
        run_silence ((pySplitWs cmd.text).getD 0 "")
          ((pySplitWs cmd.text).getD 1 "")
          (pyJoin " " ((pySplitWs cmd.text).drop 2))
          cmd.user_name now backend) := by
  have hmain : ∀ b, handle_silence_command cfg env cmd now b =
      try_body cmd.user_name cmd.text now b :=
    fun b => handle_eq_try_body cfg env cmd now b h1 h2 h3
  constructor
  · intro hlen
    have husage : ∀ b, handle_silence_command cfg env cmd now b =
        .reply "ephemeral" usageText := by
      intro b
      rw [hmain b]
      simp only [try_body]
      rw [if_pos hlen]
    exact ⟨husage backend, fun b' => (husage b').trans (husage backend).symm⟩
  · intro hlen
    rw [hmain backend]
    simp only [try_body]
    rw [if_neg (not_lt.mpr hlen)]

/-- Claim C6, witness: a one-token text gets the usage reply; the text
`"a=b   2h  hello world"` (with runs of spaces) is parsed into matcher
`"a=b"`, duration string `"2h"` and comment `"hello world"`. -/
theorem c6_witness :
    handle_silence_command cfgStd none (mkCmd "tok1" "alice" "alertname=X") 0
        (.response 200 "s") = .reply "ephemeral" usageText ∧
    handle_silence_command cfgStd none
        (mkCmd "tok1" "alice" "a=b   2h  hello world") 0 (.response 200 "s") =
      run_silence "a=b" "2h" "hello world" "alice" 0 (.response 200 "s") := by
  constructor
  · exact ((c6_arg_split cfgStd none _ 0 _ (by decide) (by decide)
      (fun us h => absurd h (by simp [get_approved_users]))).1 (by decide)).1
  · exact (c6_arg_split cfgStd none _ 0 _ (by decide) (by decide)
      (fun us h => absurd h (by simp [get_approved_users]))).2 (by decide)

/-- Claim C4 (confirmed): once the token and allow-list checks pass,
the handler always produces a `reply` (HTTP 200 with a chat body),
never a raised `HTTPException`, and in each post-auth failure case the
reply is ephemeral: a duration parse failure carries the parse error
text, a matcher segment lacking `=` surfaces as the generic
"An error occurred" reply via `IndexError`, and a network failure or
non-2xx downstream status is reported in an ephemeral reply. -/
theorem c4_post_auth_failures (cfg : Config) (env : Option String)
    (cmd : MattermostCommand) (now : Int) (backend : BackendBehavior)
    (h1 : cfg.MATTERMOST_TOKENS ≠ [])
    (h2 : cmd.token ∈ cfg.MATTERMOST_TOKENS)
    (h3 : ∀ us, get_approved_users env = some us → cmd.user_name ∈ us) :
    (∃ rt txt, handle_silence_command cfg env cmd now backend =
      .reply rt txt) ∧
    (∀ msg, 3 ≤ (pySplitWs cmd.text).length →
      parse_duration ((pySplitWs cmd.text).getD 1 "") =
        .error (.valueError msg) →
      handle_silence_command cfg env cmd now backend =
        .reply "ephemeral" ("Error: " ++ msg)) ∧
    (∀ d msg, 3 ≤ (pySplitWs cmd.text).length →
      parse_duration ((pySplitWs cmd.text).getD 1 "") = .ok d →
      build_matchers ((pySplitWs cmd.text).getD 0 "") =
        .error (.indexError msg) →
      handle_silence_command cfg env cmd now backend =
        .reply "ephemeral" ("An error occurred: " ++ msg)) ∧
    (∀ d ms msg, 3 ≤ (pySplitWs cmd.text).length →
      parse_duration ((pySplitWs cmd.text).getD 1 "") = .ok d →
      build_matchers ((pySplitWs cmd.text).getD 0 "") = .ok ms →
      backend = .networkFailure msg →
      handle_silence_command cfg env cmd now backend =
        .reply "ephemeral" ("An error occurred: " ++ msg)) ∧
    (∀ d ms status sid, 3 ≤ (pySplitWs cmd.text).length →
      parse_duration ((pySplitWs cmd.text).getD 1 "") = .ok d →
      build_matchers ((pySplitWs cmd.text).getD 0 "") = .ok ms →
      backend = .response status sid →
      ¬(200 ≤ status ∧ status < 300) →
      handle_silence_command cfg env cmd now backend =
        .reply "ephemeral" ("An error occurred: " ++ toString status)) := by
  have hmain := handle_eq_try_body cfg env cmd now backend h1 h2 h3
  refine ⟨?_, ?_, ?_, ?_, ?_⟩
  · rw [hmain]
    exact try_body_reply _ _ _ _
  · intro msg hlen hparse
    rw [hmain]
    simp only [try_body]
    rw [if_neg (not_lt.mpr hlen)]
    simp only [run_silence, hparse, handleException]
  · intro d msg hlen hparse hbuild
    rw [hmain]
    simp only [try_body]
    rw [if_neg (not_lt.mpr hlen)]
    have hcs := create_silence_build_error now ((pySplitWs cmd.text).getD 0 "")
      d (pyJoin " " ((pySplitWs cmd.text).drop 2)) cmd.user_name backend _ hbuild
    simp only [run_silence, hparse, hcs, handleException, PyExc.str]
  · intro d ms msg hlen hparse hbuild hback
    subst hback
    rw [hmain]
    simp only [try_body]
    rw [if_neg (not_lt.mpr hlen)]
    have hcs := create_silence_network now ((pySplitWs cmd.text).getD 0 "") d
      (pyJoin " " ((pySplitWs cmd.text).drop 2)) cmd.user_name ms msg hbuild
    simp only [run_silence, hparse, hcs, handleException, PyExc.str]
  · intro d ms status sid hlen hparse hbuild hback hbad
    subst hback
    rw [hmain]
    simp only [try_body]
    rw [if_neg (not_lt.mpr hlen)]
    have hcs := create_silence_status now ((pySplitWs cmd.text).getD 0 "") d
      (pyJoin " " ((pySplitWs cmd.text).drop 2)) cmd.user_name ms status sid
      hbuild
    rw [if_neg hbad] at hcs
    simp only [run_silence, hparse, hcs, handleException, PyExc.str]

/-- Claim C4, witness: an authenticated request whose duration token is
`"nope"` gets the ephemeral reply carrying the parse error text, not an
HTTP-level error. -/
theorem c4_witness :
    handle_silence_command cfgStd none (mkCmd "tok1" "alice" "a=b nope hi") 0
        (.response 200 "s") =
      .reply "ephemeral" ("Error: " ++ invalidDurationMsg) :=
  (c4_post_auth_failures cfgStd none (mkCmd "tok1" "alice" "a=b nope hi") 0
      (.response 200 "s") (by decide) (by decide)
      (fun us h => absurd h (by simp [get_approved_users]))).2.1
    invalidDurationMsg (by decide) (by decide)

end Silencer
